import Mathlib

/-!
Verification of the OpenCV GDB/QtCreator pretty-printer (`opencv_dumper.py`).

The development shallowly embeds the dumper functions:
`qdump__cv__Mat` (flag decoding, summary text, the bounded lazy element grid,
ROI recovery), and the four geometry formatters `qdump__cv__Point_`,
`qdump__cv__Size_`, `qdump__cv__Rect_`, `qdump__cv__RotatedRect`.

Modelling conventions:
- Python integers are `Int` (or `Nat` where the source values are
  nonnegative by construction, e.g. loop indices and bit-field inputs).
- Scalar values read from the debuggee are `CvScalar`: a field of floating
  declared type carries a rational, an integral field carries an integer.
  `float(v)` on a debugger value succeeds exactly on floating fields (this is
  what the dumpers' try/except domain detection relies on); `int(v)`
  truncates toward zero.
- A computation that lets a Python exception escape (so the host never
  receives the value) is modelled with `Option`, the escape being `none`.
- Transcendental float math (`math.sin`, `math.cos`, `math.sqrt`,
  `math.atan2`) is modelled over `ℝ` (with `Complex.arg` playing the role of
  `atan2`); these definitions are exact-real counterparts of the double
  computations, which is faithful at the exactly-representable inputs the
  theorems below use.
-/

/-- Table `DEPTH_NAMES` of the source: canonical name per depth code. -/
def DEPTH_NAMES : List String :=
  ["CV_8U", "CV_8S", "CV_16U", "CV_16S", "CV_32S", "CV_32F", "CV_64F", "undefined"]

/-- Table `DEPTH_BYTE_SIZE` of the source: element byte size per depth code. -/
def DEPTH_BYTE_SIZE : List Nat := [1, 1, 2, 2, 4, 4, 8, 1]

/-- Source lines 37 and 39: `depth = flags & 7` followed by
`depth = min(depth, 7)`. -/
def matDepth (flags : Nat) : Nat := min (flags &&& 7) 7

/-- Source line 38: `channels = 1 + (flags >> 3) & 63`.  Python's `+` binds
tighter than `&`, so this is `(1 + (flags >> 3)) & 63`, not
`1 + ((flags >> 3) & 63)`. -/
def matChannels (flags : Nat) : Nat := (1 + (flags >>> 3)) &&& 63

/-- The spec's decoding formula for the channel count:
`channels = 1 + ((flags >> 3) & 63)` (this is what OpenCV's own
`CV_MAT_CN` computes; kept separate from `matChannels`, which is the
source's expression, for refinement comparison). -/
def specChannels (flags : Nat) : Nat := 1 + ((flags >>> 3) &&& 63)

/-- Modelled from the spec (claim C2): pack a depth code into bits 0..2 and
`channels - 1` into bits 3..8 of the flag word.  The encoder is not part of
the dumper (the dumper only decodes); this is the layout the claim states. -/
def encodeFlags (depth channels : Nat) : Nat := depth ||| ((channels - 1) <<< 3)

/-- Source lines 40 and 45: `cv_type_name = DEPTH_NAMES[depth]` then
`cv_type_name += 'C%d' % channels`.  The index is always at most 7, so the
`getD` default is never consulted. -/
def matTypeName (flags : Nat) : String :=
  DEPTH_NAMES.getD (matDepth flags) "undefined" ++ "C" ++ toString (matChannels flags)

/-- Source line 42: `data_byte_size = DEPTH_BYTE_SIZE[depth]` (index at most
7, default never consulted). -/
def matByteSize (flags : Nat) : Nat := DEPTH_BYTE_SIZE.getD (matDepth flags) 1

/-- The fields of a `cv::Mat` header that `qdump__cv__Mat` reads.  Pointers
are byte addresses.  `refcount = none` models a null/absent `refcount`
pointer, whose `dereference()` raises.  `step0` is `value['step']['p'][0]`. -/
structure CvMat where
  flags : Nat
  rows : Int
  cols : Int
  refcount : Option Int
  data : Int
  datastart : Int
  dataend : Int
  datalimit : Int
  step0 : Int

/-- Source lines 50-60: the summary string passed to `putValue`.  The
`refcount` pointer is dereferenced unconditionally (line 51) with no
try/except, so a null/absent refcount raises before `putValue` is ever
reached; that escape is the `none` result. -/
def matSummary (m : CvMat) : Option String :=
  match m.refcount with
  | none => none
  | some rc =>
    let base := toString m.cols ++ "x" ++ toString m.rows ++ " " ++ matTypeName m.flags
    if rc ≤ 0 then some "unistantiated"
    else if rc = 1 then some (base ++ " unique")
    else some (base ++ " shared")

/-- The four scalar children of the `roi` node (source lines 148-164):
`x = first_col`, `y = first_row`, `width = cols`, `height = rows`. -/
structure RoiVal where
  x : Int
  y : Int
  width : Int
  height : Int
deriving DecidableEq

/-- Source lines 142-147: `initial_stride = image_data_start - datastart`;
`first_row`/`first_col` stay 0 unless `initial_stride > 0`, in which case
`first_row = initial_stride / line_step` (Python float division whose result
is displayed through `int()`/`'%d'`, i.e. truncation toward zero, `Int.tdiv`)
and `first_col = int((initial_stride % line_step) / (data_byte_size*channels))`
(Python `%`, which agrees with `Int.emod` for a positive divisor, then
truncating division).  The model is faithful whenever `step0` and
`data_byte_size*channels` are positive; a zero divisor would raise
`ZeroDivisionError` in the source. -/
def matROI (m : CvMat) : RoiVal :=
  let initialStride := m.data - m.datastart
  if 0 < initialStride then
    { x := (initialStride.emod m.step0).tdiv ((matByteSize m.flags : Int) * (matChannels m.flags : Int))
      y := initialStride.tdiv m.step0
      width := m.cols
      height := m.rows }
  else
    { x := 0, y := 0, width := m.cols, height := m.rows }

/-- A matrix header with `refcount` present; used to instantiate the
summary theorems (`flags = 0` is CV_8UC1, `cols = 3`, `rows = 2`). -/
def c3mat (rc : Int) : CvMat :=
  { flags := 0, rows := 2, cols := 3, refcount := some rc
    data := 0, datastart := 0, dataend := 0, datalimit := 0, step0 := 64 }

/-- A matrix header with an absent (null) `refcount` pointer. -/
def mat9 : CvMat :=
  { flags := 0, rows := 2, cols := 3, refcount := none
    data := 0, datastart := 0, dataend := 0, datalimit := 0, step0 := 64 }

/-- The claim C4 instance: `byteOffset = 130 - 0 = 130`, `step0 = 64`,
`flags = 0` so the element byte size and the channel count are both 1. -/
def c4mat : CvMat :=
  { flags := 0, rows := 4, cols := 8, refcount := some 1
    data := 130, datastart := 0, dataend := 0, datalimit := 0, step0 := 64 }

/-- A scalar field as read from the debuggee.  A floating-typed field
carries a rational (`f`), an integral field an integer (`i`). -/
inductive CvScalar where
  | f (v : ℚ)
  | i (v : Int)

/-- Python `float(value)` on a debugger value: succeeds exactly on fields of
floating declared type (the geometry dumpers' try/except fallback relies on
the conversion raising for other types). -/
def pyFloat? : CvScalar → Option ℚ
  | .f v => some v
  | .i _ => none

/-- Python `int(value)`: the identity on integral fields, truncation toward
zero on floating ones. -/
def pyIntOf : CvScalar → Int
  | .i n => n
  | .f v => v.num.tdiv (v.den : Int)

/-- Render `n` hundredths as a fixed-point decimal with two digits after the
point, as `'%.2f'` prints a float equal to `n / 100`. -/
def fmtHundredths (n : Int) : String :=
  let sign := if n < 0 then "-" else ""
  let a := n.natAbs
  let rem := a % 100
  sign ++ toString (a / 100) ++ "." ++ (if rem < 10 then "0" ++ toString rem else toString rem)

/-- Python `'%.2f' % q`: round to the nearest hundredth and print with two
decimals.  Ties are rounded up here; every value formatted concretely in
this development is an exact multiple of 1/100, where all rounding rules
agree. -/
def fmtF (q : ℚ) : String := fmtHundredths ⌊q * 100 + 1 / 2⌋

/-- Python `'%d' % n`. -/
def fmtI (n : Int) : String := toString n

/-- The real-valued counterpart of `fmtF`, for values produced by
transcendental float math. -/
noncomputable def fmtFR (x : ℝ) : String := fmtHundredths ⌊x * 100 + 1 / 2⌋

/-- Python `'[%.2f, %.2f]' % p` for a coordinate pair. -/
noncomputable def fmtPairR (p : ℝ × ℝ) : String :=
  "[" ++ fmtFR p.1 ++ ", " ++ fmtFR p.2 ++ "]"

/-- Fields of a `cv::Point_` value. -/
structure CvPoint where
  x : CvScalar
  y : CvScalar

/-- Fields of a `cv::Size_` value. -/
structure CvSize where
  width : CvScalar
  height : CvScalar

/-- Fields of a `cv::Rect_` value. -/
structure CvRect where
  x : CvScalar
  y : CvScalar
  width : CvScalar
  height : CvScalar

/-- Fields of a `cv::RotatedRect` value: `angle`, `center.x`, `center.y`,
`size.width`, `size.height`. -/
structure CvRotatedRect where
  angle : CvScalar
  cx : CvScalar
  cy : CvScalar
  sw : CvScalar
  sh : CvScalar

/-- The `try` block of `qdump__cv__Point_` (source lines 248-251): convert
both fields to float; any failure falls to the `except` branch. -/
def pointFloat? (p : CvPoint) : Option (ℚ × ℚ) :=
  match pyFloat? p.x, pyFloat? p.y with
  | some a, some b => some (a, b)
  | _, _ => none

/-- The numeric values `x`, `y` bound by `qdump__cv__Point_`: floats when the
`try` succeeds, else truncated integers from the `except` branch. -/
def pointNums (p : CvPoint) : ℚ × ℚ :=
  match pointFloat? p with
  | some t => t
  | none => ((pyIntOf p.x : ℚ), (pyIntOf p.y : ℚ))

/-- Source lines 248-255: the Point summary, `'[%.2f, %.2f]'` in the
floating domain and `'[%d, %d]'` in the integer fallback. -/
def pointSummary (p : CvPoint) : String :=
  match pointFloat? p with
  | some (a, b) => "[" ++ fmtF a ++ ", " ++ fmtF b ++ "]"
  | none => "[" ++ fmtI (pyIntOf p.x) ++ ", " ++ fmtI (pyIntOf p.y) ++ "]"

/-- The value carried by one emitted child node of a geometry dumper. -/
inductive GChild where
  | scalar (v : CvScalar)
  | text (v : String)
  | pointVal (x y : CvScalar)
  | sizeVal (width height : CvScalar)
  | group (summary : String) (subs : List (String × String))

/-- Source line 246: `qdump__cv__Point_` announces 2 children via
`putNumChild(2)` before expansion. -/
def pointNumChild : Nat := 2

/-- Source lines 260-272: the children emitted when a Point node is
expanded: `x` and `y` (the raw fields cast to the inner type), then the
derived `module` (`'%.2f' % sqrt(x*x + y*y)`) and `angle`
(`'%.2f' % degrees(atan2(y, x))`, modelled with `Complex.arg`). -/
noncomputable def pointChildren (p : CvPoint) : List (String × GChild) :=
  [("x", .scalar p.x), ("y", .scalar p.y),
   ("module", .text (fmtFR (Real.sqrt (((pointNums p).1 : ℝ) * ((pointNums p).1 : ℝ)
      + ((pointNums p).2 : ℝ) * ((pointNums p).2 : ℝ))))),
   ("angle", .text (fmtFR (Complex.arg ⟨((pointNums p).1 : ℝ), ((pointNums p).2 : ℝ)⟩
      * 180 / Real.pi)))]

/-- The `try` block of `qdump__cv__Size_` (source lines 315-318). -/
def sizeFloat? (s : CvSize) : Option (ℚ × ℚ) :=
  match pyFloat? s.width, pyFloat? s.height with
  | some a, some b => some (a, b)
  | _, _ => none

/-- Source lines 315-322: the Size summary, `'%.2fx%.2f'` or `'%dx%d'`. -/
def sizeSummary (s : CvSize) : String :=
  match sizeFloat? s with
  | some (a, b) => fmtF a ++ "x" ++ fmtF b
  | none => fmtI (pyIntOf s.width) ++ "x" ++ fmtI (pyIntOf s.height)

/-- Source lines 327-330: Size children are the two raw fields only. -/
def sizeChildren (s : CvSize) : List (String × GChild) :=
  [("width", .scalar s.width), ("height", .scalar s.height)]

/-- The `try` block of `qdump__cv__Rect_` (source lines 281-286). -/
def rectFloat? (r : CvRect) : Option (ℚ × ℚ × ℚ × ℚ) :=
  match pyFloat? r.x, pyFloat? r.y, pyFloat? r.width, pyFloat? r.height with
  | some a, some b, some c, some d => some (a, b, c, d)
  | _, _, _, _ => none

/-- The numeric values bound by `qdump__cv__Rect_` in whichever domain the
try/except resolved. -/
def rectNums (r : CvRect) : ℚ × ℚ × ℚ × ℚ :=
  match rectFloat? r with
  | some t => t
  | none => ((pyIntOf r.x : ℚ), (pyIntOf r.y : ℚ), (pyIntOf r.width : ℚ), (pyIntOf r.height : ℚ))

/-- Source lines 281-296: the Rect summary, `'[%.2f, %.2f][%.2fx%.2f]'` or
`'[%d, %d][%dx%d]'`. -/
def rectSummary (r : CvRect) : String :=
  match rectFloat? r with
  | some (a, b, c, d) =>
    "[" ++ fmtF a ++ ", " ++ fmtF b ++ "][" ++ fmtF c ++ "x" ++ fmtF d ++ "]"
  | none =>
    "[" ++ fmtI (pyIntOf r.x) ++ ", " ++ fmtI (pyIntOf r.y) ++ "]["
      ++ fmtI (pyIntOf r.width) ++ "x" ++ fmtI (pyIntOf r.height) ++ "]"

/-- Source lines 298-306: the children emitted when a Rect node is expanded.
The four raw fields are followed by TWO children named "area": line 303 is a
stray `self.putSubItem('area', '%.2f' % (width*height))` (it hands the
already-formatted string where a debugger value is expected, but the SubItem
wrapper still opens and closes a child of that name), and lines 304-306 are
the intended `SubItem('area')` block with the same `'%.2f' % (width*height)`
payload. -/
def rectChildren (r : CvRect) : List (String × GChild) :=
  [("x", .scalar r.x), ("y", .scalar r.y),
   ("width", .scalar r.width), ("height", .scalar r.height),
   ("area", .text (fmtF ((rectNums r).2.2.1 * (rectNums r).2.2.2))),
   ("area", .text (fmtF ((rectNums r).2.2.1 * (rectNums r).2.2.2)))]

/-- The float conversions at the top of `qdump__cv__RotatedRect` (source
lines 174-178).  There is no try/except here: if any conversion raises, the
whole dumper aborts. -/
def rotatedRectFloat? (r : CvRotatedRect) : Option (ℚ × ℚ × ℚ × ℚ × ℚ) :=
  match pyFloat? r.angle, pyFloat? r.cx, pyFloat? r.cy, pyFloat? r.sw, pyFloat? r.sh with
  | some a, some x, some y, some w, some h => some (a, x, y, w, h)
  | _, _, _, _, _ => none

/-- Source line 180: the RotatedRect summary
`'[%.2f, %.2f][%.2fx%.2f, %.2f]' % (x, y, width, height, angle)`; `none`
when a field of non-floating type makes `float()` raise (line 174-178, no
fallback). -/
def rotatedRectSummary (r : CvRotatedRect) : Option String :=
  match rotatedRectFloat? r with
  | some (a, x, y, w, h) =>
    some ("[" ++ fmtF x ++ ", " ++ fmtF y ++ "][" ++ fmtF w ++ "x" ++ fmtF h
      ++ ", " ++ fmtF a ++ "]")
  | none => none

/-- Source line 172: `qdump__cv__RotatedRect` announces 1 child via
`putNumChild(1)` before expansion. -/
def rotatedRectNumChild : Nat := 1

/-- Source lines 192-195: corner 0 of the rotated rectangle, with
`angle_rad = angle*pi/180`, `b = cos(angle_rad)*0.5`, `a = sin(angle_rad)*0.5`. -/
noncomputable def rrP0 (angle x y w h : ℝ) : ℝ × ℝ :=
  let angleRad := angle * Real.pi / 180
  let b := Real.cos angleRad * 0.5
  let a := Real.sin angleRad * 0.5
  (x - a * h - b * w, y + b * h - a * w)

/-- Source line 196: corner 1. -/
noncomputable def rrP1 (angle x y w h : ℝ) : ℝ × ℝ :=
  let angleRad := angle * Real.pi / 180
  let b := Real.cos angleRad * 0.5
  let a := Real.sin angleRad * 0.5
  (x + a * h - b * w, y - b * h - a * w)

/-- Source line 197: corner 2 is the reflection of corner 0 through the
center. -/
noncomputable def rrP2 (angle x y w h : ℝ) : ℝ × ℝ :=
  (2 * x - (rrP0 angle x y w h).1, 2 * y - (rrP0 angle x y w h).2)

/-- Source line 198: corner 3 is the reflection of corner 1 through the
center. -/
noncomputable def rrP3 (angle x y w h : ℝ) : ℝ × ℝ :=
  (2 * x - (rrP1 angle x y w h).1, 2 * y - (rrP1 angle x y w h).2)

/-- Source line 199: `points = [p0, p1, p2, p3]`, in that order. -/
noncomputable def rrPoints (angle x y w h : ℝ) : List (ℝ × ℝ) :=
  [rrP0 angle x y w h, rrP1 angle x y w h, rrP2 angle x y w h, rrP3 angle x y w h]

/-- Source lines 200-211: the sub-children of the `points` child, one per
corner, named `'[%d]' % i` and valued `'[%.2f, %.2f]' % p`. -/
noncomputable def rrPointsChildren (angle x y w h : ℝ) : List (String × String) :=
  (rrPoints angle x y w h).enum.map
    (fun ip => ("[" ++ toString ip.1 ++ "]", fmtPairR ip.2))

/-- Source lines 214-215: `tl`, the componentwise minimum of the four
corners. -/
noncomputable def rrTL (angle x y w h : ℝ) : ℝ × ℝ :=
  (min (min (min (rrP0 angle x y w h).1 (rrP1 angle x y w h).1) (rrP2 angle x y w h).1)
      (rrP3 angle x y w h).1,
   min (min (min (rrP0 angle x y w h).2 (rrP1 angle x y w h).2) (rrP2 angle x y w h).2)
      (rrP3 angle x y w h).2)

/-- Source lines 216-217: `br`, the componentwise maximum of the four
corners. -/
noncomputable def rrBR (angle x y w h : ℝ) : ℝ × ℝ :=
  (max (max (max (rrP0 angle x y w h).1 (rrP1 angle x y w h).1) (rrP2 angle x y w h).1)
      (rrP3 angle x y w h).1,
   max (max (max (rrP0 angle x y w h).2 (rrP1 angle x y w h).2) (rrP2 angle x y w h).2)
      (rrP3 angle x y w h).2)

/-- Source line 221: the `boundingrect` child's own summary
`'[%.2f, %.2f][%.2fx%.2f]' % (tl[0], tl[1], rWidth, rHeight)`. -/
noncomputable def rrBoundingSummary (angle x y w h : ℝ) : String :=
  "[" ++ fmtFR (rrTL angle x y w h).1 ++ ", " ++ fmtFR (rrTL angle x y w h).2 ++ "]["
    ++ fmtFR ((rrBR angle x y w h).1 - (rrTL angle x y w h).1) ++ "x"
    ++ fmtFR ((rrBR angle x y w h).2 - (rrTL angle x y w h).2) ++ "]"

/-- Source lines 223-239: the sub-children of the `boundingrect` child:
`top left`, `bottom right`, `size` (each `'[%.2f, %.2f]'`), and `area`
(`'%.2f' % (rWidth*rHeight)`). -/
noncomputable def rrBoundingChildren (angle x y w h : ℝ) : List (String × String) :=
  [("top left", fmtPairR (rrTL angle x y w h)),
   ("bottom right", fmtPairR (rrBR angle x y w h)),
   ("size", fmtPairR ((rrBR angle x y w h).1 - (rrTL angle x y w h).1,
      (rrBR angle x y w h).2 - (rrTL angle x y w h).2)),
   ("area", fmtFR (((rrBR angle x y w h).1 - (rrTL angle x y w h).1)
      * ((rrBR angle x y w h).2 - (rrTL angle x y w h).2)))]

/-- Source lines 182-239: the children emitted when a RotatedRect node is
expanded: `angle`, `center`, `size` (raw fields), the derived `area`
(`'%.2f' % (width*height)` of the unrotated size), and the `points` and
`boundingrect` groups.  `none` when the float conversions at lines 174-178
already aborted the dumper. -/
noncomputable def rotatedRectChildren (r : CvRotatedRect) : Option (List (String × GChild)) :=
  match rotatedRectFloat? r with
  | none => none
  | some (angle, x, y, w, h) =>
    some [("angle", .scalar r.angle),
          ("center", .pointVal r.cx r.cy),
          ("size", .sizeVal r.sw r.sh),
          ("area", .text (fmtF (w * h))),
          ("points", .group "[x, y]"
            (rrPointsChildren (angle : ℝ) (x : ℝ) (y : ℝ) (w : ℝ) (h : ℝ))),
          ("boundingrect", .group
            (rrBoundingSummary (angle : ℝ) (x : ℝ) (y : ℝ) (w : ℝ) (h : ℝ))
            (rrBoundingChildren (angle : ℝ) (x : ℝ) (y : ℝ) (w : ℝ) (h : ℝ)))]

/-- A RotatedRect whose fields are all of integral type. -/
def rrIntExample : CvRotatedRect := ⟨.i 1, .i 2, .i 3, .i 4, .i 5⟩

/-- A Rect whose fields are all of integral type. -/
def rectIntExample : CvRect := ⟨.i 1, .i 2, .i 3, .i 4⟩

/-- The `'%3d'` format used for grid-cell indices: decimal text right-aligned
to width 3 with spaces. -/
def pad3 (n : Nat) : String :=
  let s := toString n
  if s.length < 3 then String.mk (List.replicate (3 - s.length) ' ') ++ s else s

/-- One emitted element-grid child (source lines 99-105): its displayed name,
the byte address its scalars are read from, and how many bytes are read. -/
structure GridCell where
  name : String
  addrByte : Int
  readLen : Nat
deriving DecidableEq

/-- The grid cell for row `i`, column `j` (source lines 99-105): named
`'[%3d,%3d]' % (i, j)`; the read starts at
`p + i*cols*channels + j*channels` where `p` is `data` viewed as a pointer
to the element scalar type, i.e. at byte address
`data + (i*cols*channels + j*channels) * data_byte_size`, and reads
`channels * data_byte_size` bytes.  `step` is not consulted. -/
def mkCell (m : CvMat) (i j : Nat) : GridCell :=
  { name := "[" ++ pad3 i ++ "," ++ pad3 j ++ "]"
    addrByte := m.data + ((i : Int) * m.cols * (matChannels m.flags : Int)
      + (j : Int) * (matChannels m.flags : Int)) * (matByteSize m.flags : Int)
    readLen := matChannels m.flags * matByteSize m.flags }

/-- The inner `for j in range(0, cols)` loop of the grid (source lines
95-106), with `colsLeft` columns still to visit, `j` the next column index
and `s` the running emission counter: before each cell the source checks
`if s > size: break`, emits otherwise, and increments `s`. -/
def matRowLoop (m : CvMat) (size : Int) (i : Nat) : Nat → Nat → Nat → List GridCell × Nat
  | 0, _, s => ([], s)
  | colsLeft + 1, j, s =>
    if (s : Int) > size then ([], s)
    else
      let r := matRowLoop m size i colsLeft (j + 1) (s + 1)
      (mkCell m i j :: r.1, r.2)

/-- The outer `for i in range(0, rows)` loop of the grid (source lines
94-110): run one row, then check `if s > size: break` again before the next
row. -/
def matRowsLoop (m : CvMat) (size : Int) : Nat → Nat → Nat → List GridCell
  | 0, _, _ => []
  | rowsLeft + 1, i, s =>
    let r := matRowLoop m size i m.cols.toNat 0 s
    if (r.2 : Int) > size then r.1
    else r.1 ++ matRowsLoop m size rowsLeft (i + 1) r.2

/-- The element-grid children emitted when the `data` node is expanded
(source lines 83-110): `size = cols*rows` capped by `size = min(size, 1000)`
at line 86, then the two nested loops starting from `s = 0`. -/
def matDataChildren (m : CvMat) : List GridCell :=
  matRowsLoop m (min (m.cols * m.rows) 1000) m.rows.toNat 0 0

/-- The child count the `data` node announces (source lines 86-90):
`putNumChild(min(cols*rows, 1000))` when `cols > 0 and rows > 0`, else
`putNumChild(0)`. -/
def matDataNumChild (m : CvMat) : Int :=
  if 0 < m.cols ∧ 0 < m.rows then min (m.cols * m.rows) 1000 else 0

/-- The claim C1 failing input: a 1 x 1002 CV_8UC1 matrix, whose element
count 1002 exceeds the cap. -/
def c1mat : CvMat :=
  { flags := 0, rows := 1, cols := 1002, refcount := some 1
    data := 0, datastart := 0, dataend := 0, datalimit := 0, step0 := 1002 }

/-- A matrix header with `rows = 0`. -/
def czr : CvMat :=
  { flags := 0, rows := 0, cols := 5, refcount := some 1
    data := 0, datastart := 0, dataend := 0, datalimit := 0, step0 := 5 }

/-- A matrix header with `cols = 0`. -/
def czc : CvMat :=
  { flags := 0, rows := 5, cols := 0, refcount := some 1
    data := 0, datastart := 0, dataend := 0, datalimit := 0, step0 := 1 }

/-- A small concrete 2 x 3 CV_8UC1 matrix used to instantiate the grid
theorems. -/
def mW : CvMat :=
  { flags := 0, rows := 2, cols := 3, refcount := some 1
    data := 1000, datastart := 1000, dataend := 0, datalimit := 0, step0 := 3 }

/-- Claim C2, counterexample to the claimed round-trip and evaluation of the
code at the failing input: encoding depth 0 with 64 channels gives
`flags = 504`; the source's `channels = 1 + (flags >> 3) & 63` (which Python
parses as `(1 + (flags >> 3)) & 63`) decodes 0 channels, while the spec's
formula `1 + ((flags >> 3) & 63)` recovers 64.  Depth is recovered fine. -/
theorem claim2_channels_precedence_bug :
    matDepth (encodeFlags 0 64) = 0 ∧
    matChannels (encodeFlags 0 64) = 0 ∧
    specChannels (encodeFlags 0 64) = 64 ∧
    matChannels (encodeFlags 0 64) ≠ 64 := by
  decide

/-- Claim C3, counterexample: at `refCount = 0` the summary the source emits
is the misspelled string "unistantiated", not "uninstantiated" as the claim
states. -/
theorem claim3_counterexample :
    matSummary (c3mat 0) = some "unistantiated" ∧
    matSummary (c3mat 0) ≠ some "uninstantiated" := by
  decide

/-- Claim C3 as amended: for a readable refCount, the summary is exactly
"unistantiated" (the source's spelling) when `refCount ≤ 0`; it is the base
text `cols x rows typeName` suffixed with " unique" when `refCount = 1` and
with " shared" when `refCount > 1`. -/
theorem claim3_summary (m : CvMat) (rc : Int) (h : m.refcount = some rc) :
    (rc ≤ 0 → matSummary m = some "unistantiated") ∧
    (rc = 1 → matSummary m =
      some (toString m.cols ++ "x" ++ toString m.rows ++ " " ++ matTypeName m.flags ++ " unique")) ∧
    (1 < rc → matSummary m =
      some (toString m.cols ++ "x" ++ toString m.rows ++ " " ++ matTypeName m.flags ++ " shared")) := by
  refine ⟨fun hrc => ?_, fun hrc => ?_, fun hrc => ?_⟩
  · simp [matSummary, h, hrc]
  · simp [matSummary, h, hrc]
  · have h1 : ¬ rc ≤ 0 := by omega
    have h2 : rc ≠ 1 := by omega
    simp [matSummary, h, h1, h2]

/-- Witness for `claim3_summary` at a concrete header with `refCount = 1`. -/
theorem claim3_summary_witness :
    (c3mat 1).refcount = some 1 ∧
    matSummary (c3mat 1) =
      some (toString (c3mat 1).cols ++ "x" ++ toString (c3mat 1).rows ++ " "
        ++ matTypeName (c3mat 1).flags ++ " unique") :=
  ⟨rfl, (claim3_summary (c3mat 1) 1 rfl).2.1 rfl⟩

/-- Claim C9, counterexample: with `refcount` absent the decoder does not
produce the suffix-free summary the claim describes; the unguarded
`dereference()` on line 51 raises first, so no summary at all is emitted. -/
theorem claim9_counterexample :
    matSummary mat9 = none ∧
    matSummary mat9 ≠
      some (toString mat9.cols ++ "x" ++ toString mat9.rows ++ " " ++ matTypeName mat9.flags) := by
  decide

/-- Claim C9 as amended: when the `refcount` pointer is null/absent the
dereference raises and the whole dump aborts before `putValue`; no summary
is produced (there is no suffix-omitting fallback in the source). -/
theorem claim9_absent_refcount (m : CvMat) (h : m.refcount = none) :
    matSummary m = none := by
  simp [matSummary, h]

/-- Witness for `claim9_absent_refcount` at a concrete header. -/
theorem claim9_absent_refcount_witness :
    mat9.refcount = none ∧ matSummary mat9 = none :=
  ⟨rfl, claim9_absent_refcount mat9 rfl⟩

/-- Claim C4: when `byteOffset = data - datastart` is nonpositive the ROI is
x 0, y 0, width cols, height rows; when positive, the row (`y`) is
`byteOffset` divided by `step0` and the column (`x`) is
`byteOffset mod step0` divided by `byteSize * channels`, both truncated to
integer; the width and height children always equal `cols` and `rows`; and
the concrete instance offset 130, stride 64, byte size 1, 1 channel yields
row 2 and column 2. -/
theorem claim4_roi (m : CvMat) :
    (m.data - m.datastart ≤ 0 → matROI m = ⟨0, 0, m.cols, m.rows⟩) ∧
    (0 < m.data - m.datastart →
      matROI m =
        ⟨((m.data - m.datastart).emod m.step0).tdiv
            ((matByteSize m.flags : Int) * (matChannels m.flags : Int)),
          (m.data - m.datastart).tdiv m.step0, m.cols, m.rows⟩) ∧
    (matROI m).width = m.cols ∧ (matROI m).height = m.rows ∧
    matROI c4mat = ⟨2, 2, c4mat.cols, c4mat.rows⟩ := by
  refine ⟨fun h => ?_, fun h => ?_, ?_, ?_, by decide⟩
  · simp [matROI, show ¬ (0 < m.data - m.datastart) by omega]
  · simp [matROI, h]
  · by_cases h : 0 < m.data - m.datastart <;> simp [matROI, h]
  · by_cases h : 0 < m.data - m.datastart <;> simp [matROI, h]

/-- Witness for `claim4_roi`: the positive-offset hypothesis is discharged at
the concrete header `c4mat`. -/
theorem claim4_roi_witness :
    0 < c4mat.data - c4mat.datastart ∧
    matROI c4mat =
      ⟨((c4mat.data - c4mat.datastart).emod c4mat.step0).tdiv
          ((matByteSize c4mat.flags : Int) * (matChannels c4mat.flags : Int)),
        (c4mat.data - c4mat.datastart).tdiv c4mat.step0, c4mat.cols, c4mat.rows⟩ :=
  ⟨by decide, (claim4_roi c4mat).2.1 (by decide)⟩

/-- Claim C6, counterexample: `qdump__cv__RotatedRect` has no try/except, so
on a value whose fields are not floating it produces no summary at all
instead of falling back to integer text (contrast `qdump__cv__Rect_`, which
does fall back on the same field kinds). -/
theorem claim6_counterexample :
    rotatedRectSummary rrIntExample = none ∧
    rectSummary rectIntExample = "[1, 2][3x4]" := by
  constructor
  · rfl
  · decide

/-- Claim C6 as amended: Point, Size and Rectangle resolve the numeric
domain once per formatted value — every field of the summary is rendered
with 2 decimals when all primary fields convert to float, and every field
falls back to integer text otherwise; RotatedRectangle renders every field
with 2 decimals when all its fields are floating and produces no summary at
all otherwise (it has no integer fallback).  In all four formatters the
domain is never mixed between sibling fields of one value. -/
theorem claim6_domain_policy :
    (∀ p : CvPoint,
      (∃ a b : ℚ, pyFloat? p.x = some a ∧ pyFloat? p.y = some b ∧
        pointSummary p = "[" ++ fmtF a ++ ", " ++ fmtF b ++ "]") ∨
      (pointFloat? p = none ∧
        pointSummary p = "[" ++ fmtI (pyIntOf p.x) ++ ", " ++ fmtI (pyIntOf p.y) ++ "]")) ∧
    (∀ s : CvSize,
      (∃ a b : ℚ, pyFloat? s.width = some a ∧ pyFloat? s.height = some b ∧
        sizeSummary s = fmtF a ++ "x" ++ fmtF b) ∨
      (sizeFloat? s = none ∧
        sizeSummary s = fmtI (pyIntOf s.width) ++ "x" ++ fmtI (pyIntOf s.height))) ∧
    (∀ r : CvRect,
      (∃ a b c d : ℚ, pyFloat? r.x = some a ∧ pyFloat? r.y = some b ∧
        pyFloat? r.width = some c ∧ pyFloat? r.height = some d ∧
        rectSummary r = "[" ++ fmtF a ++ ", " ++ fmtF b ++ "][" ++ fmtF c ++ "x" ++ fmtF d ++ "]") ∨
      (rectFloat? r = none ∧
        rectSummary r = "[" ++ fmtI (pyIntOf r.x) ++ ", " ++ fmtI (pyIntOf r.y) ++ "]["
          ++ fmtI (pyIntOf r.width) ++ "x" ++ fmtI (pyIntOf r.height) ++ "]")) ∧
    (∀ rr : CvRotatedRect,
      (∃ a x y w h : ℚ, rotatedRectFloat? rr = some (a, x, y, w, h) ∧
        rotatedRectSummary rr = some ("[" ++ fmtF x ++ ", " ++ fmtF y ++ "][" ++ fmtF w
          ++ "x" ++ fmtF h ++ ", " ++ fmtF a ++ "]")) ∨
      (rotatedRectFloat? rr = none ∧ rotatedRectSummary rr = none)) := by
  refine ⟨fun p => ?_, fun s => ?_, fun r => ?_, fun rr => ?_⟩
  · obtain ⟨x, y⟩ := p
    rcases x with a | a <;> rcases y with b | b
    · exact Or.inl ⟨a, b, rfl, rfl, rfl⟩
    all_goals exact Or.inr ⟨rfl, rfl⟩
  · obtain ⟨w, h⟩ := s
    rcases w with a | a <;> rcases h with b | b
    · exact Or.inl ⟨a, b, rfl, rfl, rfl⟩
    all_goals exact Or.inr ⟨rfl, rfl⟩
  · obtain ⟨x, y, w, h⟩ := r
    rcases x with a | a <;> rcases y with b | b <;> rcases w with c | c <;> rcases h with d | d
    · exact Or.inl ⟨a, b, c, d, rfl, rfl, rfl, rfl, rfl⟩
    all_goals exact Or.inr ⟨rfl, rfl⟩
  · obtain ⟨a, x, y, w, h⟩ := rr
    rcases a with a | a <;> rcases x with x | x <;> rcases y with y | y <;>
      rcases w with w | w <;> rcases h with h | h
    · exact Or.inl ⟨a, x, y, w, h, rfl, rfl⟩
    all_goals exact Or.inr ⟨rfl, rfl⟩

/-- Claim C8: for every Rectangle value the expanded child list is `x`, `y`,
`width`, `height` followed by TWO children named "area" — the stray
`putSubItem('area', ...)` on line 303 and the `SubItem('area')` block on
lines 304-306 — so the area child appears twice, not once as claimed. -/
theorem claim8_duplicate_area :
    (∀ r : CvRect,
      (rectChildren r).map Prod.fst = ["x", "y", "width", "height", "area", "area"] ∧
      ((rectChildren r).filter (fun c => c.1 == "area")).length = 2) ∧
    (2 : Nat) ≠ 1 :=
  ⟨fun _ => ⟨rfl, rfl⟩, by decide⟩

/-- Claim C10: the Point dumper announces 2 children (`putNumChild(2)`) yet
its expansion emits the 4 children `x`, `y`, `module`, `angle`; the
RotatedRect dumper announces 1 child (`putNumChild(1)`) yet its expansion
emits the 6 children `angle`, `center`, `size`, `area`, `points`,
`boundingrect`. -/
theorem claim10_announced_vs_emitted :
    pointNumChild = 2 ∧
    (∀ p : CvPoint, (pointChildren p).map Prod.fst = ["x", "y", "module", "angle"] ∧
      (pointChildren p).length = 4) ∧
    pointNumChild ≠ 4 ∧
    rotatedRectNumChild = 1 ∧
    (∀ a x y w h : ℚ,
      (rotatedRectChildren ⟨.f a, .f x, .f y, .f w, .f h⟩).map (fun l => l.map Prod.fst)
        = some ["angle", "center", "size", "area", "points", "boundingrect"] ∧
      (rotatedRectChildren ⟨.f a, .f x, .f y, .f w, .f h⟩).map List.length = some 6) ∧
    rotatedRectNumChild ≠ 6 :=
  ⟨rfl, fun _ => ⟨rfl, rfl⟩, by decide, rfl, fun _ _ _ _ _ => ⟨rfl, rfl⟩, by decide⟩

/-- Formatting an integer-valued real with `fmtFR` is formatting that many
hundred hundredths. -/
theorem fmtFR_intCast (n : Int) : fmtFR (n : ℝ) = fmtHundredths (n * 100) := by
  unfold fmtFR
  congr 1
  rw [Int.floor_eq_iff]
  constructor <;> push_cast <;> linarith

/-- Corner 0 of the claim C7 instance (center (0,0), size 4x2, angle 0). -/
theorem rrP0_example : rrP0 0 0 0 4 2 = (-2, 1) := by
  simp only [rrP0]
  rw [show (0 : ℝ) * Real.pi / 180 = 0 by ring]
  rw [Real.sin_zero, Real.cos_zero]
  norm_num

/-- Corner 1 of the claim C7 instance. -/
theorem rrP1_example : rrP1 0 0 0 4 2 = (-2, -1) := by
  simp only [rrP1]
  rw [show (0 : ℝ) * Real.pi / 180 = 0 by ring]
  rw [Real.sin_zero, Real.cos_zero]
  norm_num

/-- Corner 2 of the claim C7 instance. -/
theorem rrP2_example : rrP2 0 0 0 4 2 = (2, -1) := by
  simp only [rrP2, rrP0_example]
  norm_num

/-- Corner 3 of the claim C7 instance. -/
theorem rrP3_example : rrP3 0 0 0 4 2 = (2, 1) := by
  simp only [rrP3, rrP1_example]
  norm_num

/-- Claim C7, counterexample: in the source's corner order the second corner
(`p1`) of the instance is (-2, -1), not (2, 1) as the claim lists. -/
theorem claim7_counterexample :
    (rrPoints 0 0 0 4 2).get? 1 = some ((-2 : ℝ), (-1 : ℝ)) ∧
    ((-2 : ℝ), (-1 : ℝ)) ≠ ((2 : ℝ), (1 : ℝ)) := by
  constructor
  · simp [rrPoints, rrP1_example]
  · simp only [ne_eq, Prod.mk.injEq, not_and]
    intro h
    norm_num at h

/-- Claim C7 as amended: for center (0,0), size 4x2, angle 0, the corners in
the source's order (p0, p1, p2, p3) are (-2,1), (-2,-1), (2,-1), (2,1) —
the same four points as the claim but with p1 and p3 swapped — and the
`boundingrect` child shows top left (-2.00, -1.00), bottom right
(2.00, 1.00), size 4.00 by 2.00 and area "8.00". -/
theorem claim7_corners_and_bbox :
    rrPoints 0 0 0 4 2 = [((-2 : ℝ), (1 : ℝ)), (-2, -1), (2, -1), (2, 1)] ∧
    rrBoundingChildren 0 0 0 4 2 =
      [("top left", "[-2.00, -1.00]"), ("bottom right", "[2.00, 1.00]"),
       ("size", "[4.00, 2.00]"), ("area", "8.00")] := by
  have htl : rrTL 0 0 0 4 2 = (-2, -1) := by
    simp only [rrTL, rrP0_example, rrP1_example, rrP2_example, rrP3_example]
    norm_num
  have hbr : rrBR 0 0 0 4 2 = (2, 1) := by
    simp only [rrBR, rrP0_example, rrP1_example, rrP2_example, rrP3_example]
    norm_num
  have hm2 : fmtFR (-2 : ℝ) = "-2.00" := by
    rw [show (-2 : ℝ) = ((-2 : ℤ) : ℝ) by norm_num, fmtFR_intCast]; decide
  have hm1 : fmtFR (-1 : ℝ) = "-1.00" := by
    rw [show (-1 : ℝ) = ((-1 : ℤ) : ℝ) by norm_num, fmtFR_intCast]; decide
  have hp2 : fmtFR (2 : ℝ) = "2.00" := by
    rw [show (2 : ℝ) = ((2 : ℤ) : ℝ) by norm_num, fmtFR_intCast]; decide
  have hp1 : fmtFR (1 : ℝ) = "1.00" := by
    rw [show (1 : ℝ) = ((1 : ℤ) : ℝ) by norm_num, fmtFR_intCast]; decide
  have hp4 : fmtFR (4 : ℝ) = "4.00" := by
    rw [show (4 : ℝ) = ((4 : ℤ) : ℝ) by norm_num, fmtFR_intCast]; decide
  have hp8 : fmtFR (8 : ℝ) = "8.00" := by
    rw [show (8 : ℝ) = ((8 : ℤ) : ℝ) by norm_num, fmtFR_intCast]; decide
  constructor
  · simp [rrPoints, rrP0_example, rrP1_example, rrP2_example, rrP3_example]
  · simp only [rrBoundingChildren, fmtPairR, htl, hbr]
    norm_num [hm2, hm1, hp2, hp1, hp4, hp8]
    refine ⟨?_, ?_, ?_⟩ <;> decide

/-- Unrolling of the inner column loop: starting at counter `s`, it emits
`min colsLeft (size + 1 - s)` consecutive cells of row `i` (one more than
the headroom `size - s` because the guard is `s > size`, not `s >= size`)
and advances the counter by that amount. -/
theorem matRowLoop_eq (m : CvMat) (size : Int) (i : Nat) :
    ∀ (colsLeft j s : Nat),
      matRowLoop m size i colsLeft j s =
        ((List.range (min colsLeft (size + 1 - (s : Int)).toNat)).map (fun d => mkCell m i (j + d)),
          s + min colsLeft (size + 1 - (s : Int)).toNat) := by
  intro colsLeft
  induction colsLeft with
  | zero =>
    intro j s
    simp [matRowLoop]
  | succ n ih =>
    intro j s
    by_cases hs : (s : Int) > size
    · have h0 : (size + 1 - (s : Int)).toNat = 0 := by omega
      simp [matRowLoop, hs, h0]
    · have h1 : (size + 1 - (s : Int)).toNat = (size - (s : Int)).toNat + 1 := by omega
      have h2 : (size + 1 - ((s + 1 : Nat) : Int)).toNat = (size - (s : Int)).toNat := by
        push_cast
        omega
      simp only [matRowLoop, if_neg hs, ih (j + 1) (s + 1), h1, h2, Nat.succ_min_succ,
        Prod.mk.injEq]
      refine ⟨?_, by omega⟩
      simp only [List.range_succ_eq_map, List.map_cons, List.map_map, List.cons.injEq]
      refine ⟨by simp, List.map_congr_left (fun d hd => ?_)⟩
      simp only [Function.comp_apply]
      congr 1
      omega

/-- Unrolling of the outer row loop: started at row `i` with the row-major
invariant counter `s = i * cols`, it emits the cells of consecutive indices
`i*cols + d`, each at row `(i*cols + d) / cols` and column
`(i*cols + d) % cols`. -/
theorem matRowsLoop_eq (m : CvMat) (size : Int) (hc : 0 < m.cols.toNat) :
    ∀ (rowsLeft i : Nat),
      matRowsLoop m size rowsLeft i (i * m.cols.toNat) =
        (List.range (min (rowsLeft * m.cols.toNat)
            (size + 1 - ((i * m.cols.toNat : Nat) : Int)).toNat)).map
          (fun d => mkCell m ((i * m.cols.toNat + d) / m.cols.toNat)
            ((i * m.cols.toNat + d) % m.cols.toNat)) := by
  intro rowsLeft
  induction rowsLeft with
  | zero =>
    intro i
    simp [matRowsLoop]
  | succ R ih =>
    intro i
    have hcell : ∀ d, d < m.cols.toNat →
        mkCell m i (0 + d) =
          mkCell m ((i * m.cols.toNat + d) / m.cols.toNat)
            ((i * m.cols.toNat + d) % m.cols.toNat) := by
      intro d hd
      have e1 : i * m.cols.toNat + d = d + m.cols.toNat * i := by ring
      rw [e1, Nat.add_mul_div_left _ _ hc, Nat.div_eq_of_lt hd,
        Nat.add_mul_mod_self_left, Nat.mod_eq_of_lt hd, Nat.zero_add, Nat.zero_add]
    simp only [matRowsLoop, matRowLoop_eq]
    by_cases hbr : ((i * m.cols.toNat + min m.cols.toNat
        (size + 1 - ((i * m.cols.toNat : Nat) : Int)).toNat : Nat) : Int) > size
    · rw [if_pos hbr]
      have h1 : m.cols.toNat ≤ (R + 1) * m.cols.toNat :=
        Nat.le_mul_of_pos_left m.cols.toNat (Nat.succ_pos R)
      have hT : min ((R + 1) * m.cols.toNat)
          (size + 1 - ((i * m.cols.toNat : Nat) : Int)).toNat =
          min m.cols.toNat (size + 1 - ((i * m.cols.toNat : Nat) : Int)).toNat := by
        omega
      rw [hT]
      refine List.map_congr_left (fun d hd => ?_)
      rw [List.mem_range] at hd
      exact hcell d (lt_of_lt_of_le hd (min_le_left _ _))
    · rw [if_neg hbr]
      have htc : min m.cols.toNat
          (size + 1 - ((i * m.cols.toNat : Nat) : Int)).toNat = m.cols.toNat := by
        omega
      have e2 : i * m.cols.toNat + min m.cols.toNat
          (size + 1 - ((i * m.cols.toNat : Nat) : Int)).toNat = (i + 1) * m.cols.toNat := by
        rw [htc]; ring
      rw [e2, ih (i + 1)]
      have e3 : (R + 1) * m.cols.toNat = m.cols.toNat + R * m.cols.toNat := by ring
      have e4 : (((i + 1) * m.cols.toNat : Nat) : Int) =
          ((i * m.cols.toNat : Nat) : Int) + (m.cols.toNat : Int) := by
        push_cast
        ring
      have hT : min ((R + 1) * m.cols.toNat)
          (size + 1 - ((i * m.cols.toNat : Nat) : Int)).toNat =
          min m.cols.toNat (size + 1 - ((i * m.cols.toNat : Nat) : Int)).toNat +
          min (R * m.cols.toNat)
            (size + 1 - (((i + 1) * m.cols.toNat : Nat) : Int)).toNat := by
        omega
      rw [hT, htc, List.range_add, List.map_append, List.map_map]
      have part1 : List.map (fun d => mkCell m i (0 + d)) (List.range m.cols.toNat) =
          List.map (fun d => mkCell m ((i * m.cols.toNat + d) / m.cols.toNat)
            ((i * m.cols.toNat + d) % m.cols.toNat)) (List.range m.cols.toNat) := by
        refine List.map_congr_left (fun d hd => ?_)
        rw [List.mem_range] at hd
        exact hcell d hd
      have part2 : List.map (fun d => mkCell m (((i + 1) * m.cols.toNat + d) / m.cols.toNat)
            (((i + 1) * m.cols.toNat + d) % m.cols.toNat))
            (List.range (min (R * m.cols.toNat)
              (size + 1 - (((i + 1) * m.cols.toNat : Nat) : Int)).toNat)) =
          List.map ((fun d => mkCell m ((i * m.cols.toNat + d) / m.cols.toNat)
              ((i * m.cols.toNat + d) % m.cols.toNat)) ∘ (fun d => m.cols.toNat + d))
            (List.range (min (R * m.cols.toNat)
              (size + 1 - (((i + 1) * m.cols.toNat : Nat) : Int)).toNat)) := by
        refine List.map_congr_left (fun d hd => ?_)
        simp only [Function.comp_apply]
        have e5 : i * m.cols.toNat + (m.cols.toNat + d) = (i + 1) * m.cols.toNat + d := by
          ring
        rw [e5]
      rw [part1, part2]

/-- Closed form of the emitted element grid when `cols` is positive: the
cells of the row-major indices `0, 1, ...` up to
`min (rows*cols) (min (cols*rows) 1000 + 1)` exclusive. -/
theorem matDataChildren_eq (m : CvMat) (hc : 0 < m.cols) :
    matDataChildren m =
      (List.range (min (m.rows.toNat * m.cols.toNat)
          ((min (m.cols * m.rows) 1000) + 1).toNat)).map
        (fun k => mkCell m (k / m.cols.toNat) (k % m.cols.toNat)) := by
  have hc2 : 0 < m.cols.toNat := by omega
  have h := matRowsLoop_eq m (min (m.cols * m.rows) 1000) hc2 m.rows.toNat 0
  simp only [Nat.zero_mul, Nat.cast_zero, sub_zero, Nat.zero_add] at h
  unfold matDataChildren
  exact h

/-- The number of element-grid children actually emitted, for positive
`cols`. -/
theorem matDataChildren_length (m : CvMat) (hc : 0 < m.cols) :
    (matDataChildren m).length =
      min (m.rows.toNat * m.cols.toNat) ((min (m.cols * m.rows) 1000) + 1).toNat := by
  rw [matDataChildren_eq m hc, List.length_map, List.length_range]

/-- Claim C1: the cap guard `if s > size: break` lets the counter reach
`size + 1`, so a 1 x 1002 matrix gets 1001 element children emitted while
the `data` node announced `putNumChild(1000)` — the emitted count is not
`min(rows*cols, 1000)`.  The zero-dimension halves of the claim do hold:
with `rows = 0` or `cols = 0` the grid announces and emits zero children. -/
theorem claim1_cap_off_by_one :
    matDataNumChild c1mat = 1000 ∧
    (matDataChildren c1mat).length = 1001 ∧
    (1001 : Nat) ≠ 1000 ∧
    matDataNumChild czr = 0 ∧ (matDataChildren czr).length = 0 ∧
    matDataNumChild czc = 0 ∧ (matDataChildren czc).length = 0 := by
  refine ⟨by decide, ?_, by decide, by decide, by decide, by decide, by decide⟩
  rw [matDataChildren_length c1mat (by decide)]
  decide

/-- Claim C5: for positive `cols` the element grid is enumerated row-major —
the k-th emitted cell is that of row `k / cols`, column `k % cols` — each
cell is named by its two indices (`'[%3d,%3d]'`), its scalars are read
starting at byte offset `(i*cols + j) * channels * elementByteSize` from
`data`, and the per-row stride `step0` is never consulted: changing it
leaves the emitted grid unchanged. -/
theorem claim5_grid_row_major (m : CvMat) (hc : 0 < m.cols) :
    matDataChildren m =
      (List.range (matDataChildren m).length).map (fun k =>
        ({ name := "[" ++ pad3 (k / m.cols.toNat) ++ "," ++ pad3 (k % m.cols.toNat) ++ "]"
           addrByte := m.data + (((k / m.cols.toNat : Nat) : Int) * m.cols
              + ((k % m.cols.toNat : Nat) : Int))
              * (matChannels m.flags : Int) * (matByteSize m.flags : Int)
           readLen := matChannels m.flags * matByteSize m.flags } : GridCell)) ∧
    (∀ st : Int, matDataChildren { m with step0 := st } = matDataChildren m) := by
  constructor
  · conv_lhs => rw [matDataChildren_eq m hc]
    rw [matDataChildren_length m hc]
    refine List.map_congr_left (fun k hk => ?_)
    simp only [mkCell]
    congr 1
    ring
  · intro st
    have hc2 : 0 < ({ m with step0 := st } : CvMat).cols := hc
    rw [matDataChildren_eq _ hc2, matDataChildren_eq m hc]
    rfl

/-- Witness for `claim5_grid_row_major` at the concrete 2 x 3 matrix `mW`,
with the stride-independence part instantiated at stride 999. -/
theorem claim5_grid_row_major_witness :
    0 < mW.cols ∧
    matDataChildren mW =
      (List.range (matDataChildren mW).length).map (fun k =>
        ({ name := "[" ++ pad3 (k / mW.cols.toNat) ++ "," ++ pad3 (k % mW.cols.toNat) ++ "]"
           addrByte := mW.data + (((k / mW.cols.toNat : Nat) : Int) * mW.cols
              + ((k % mW.cols.toNat : Nat) : Int))
              * (matChannels mW.flags : Int) * (matByteSize mW.flags : Int)
           readLen := matChannels mW.flags * matByteSize mW.flags } : GridCell)) ∧
    matDataChildren { mW with step0 := 999 } = matDataChildren mW :=
  ⟨by decide, (claim5_grid_row_major mW (by decide)).1,
    (claim5_grid_row_major mW (by decide)).2 999⟩
